import Mathlib

/-!
# Verification of `VirtualEngineIO` — `src/InputList.h`

Shallow embedding of the input-descriptor table of an Arduino-based
instrument-cluster simulator, together with spec-modelled runtime logic
(the scan/dispatch engine itself is not part of the given sources; only
its static configuration header is).

The embedding keeps the source's names (`hit_descriptor`, `EVFMT_*`,
`HIT_*`) where Lean allows it.
-/

namespace VirtualEngineIO

/-- The behavior modes named `HIT_MODE_PRESS`, `HIT_MODE_PRESS_RELEASE`,
`HIT_MODE_ANALOG`, `HIT_MODE_GEAR` in the source.  Their numeric values are
declared outside `InputList.h`; only the tags matter for the table. -/
inductive HitMode where
  | PRESS
  | PRESS_RELEASE
  | ANALOG
  | GEAR
  deriving DecidableEq, Repr

/-- A descriptor's source locator: either a real pin number, or a fake-analog
source index.  In the source a fake index is a pin field with the
`HIT_INDEX_FAKED` flag bit or-ed in (`0 | HIT_INDEX_FAKED`); the flag bit's
value lives outside `InputList.h`, so the flagged/unflagged distinction is
embedded as a tagged union, exactly the reading the flag encodes. -/
inductive SourceLocator where
  | RealPin (n : Nat)
  | FakeSource (index : Nat)
  deriving DecidableEq, Repr

/-- One row of the table: `// Input Index (Analog/Digital), Report Format, Key Mode`. -/
structure HIT_DESCRIPTOR where
  sourceLocator : SourceLocator
  reportTemplate : String
  mode : HitMode
  deriving DecidableEq, Repr

/-! ## Event reporting string format (`EVFMT_*` macros) -/

/-- `#define EVFMT_NEWLINE "\r\n"` — 0x0D carriage return + 0x0A line feed. -/
def EVFMT_NEWLINE : String := "\r\n"

/-- `#define EVFMT_Icon(x) ("ICON " #x EVFMT_NEWLINE)` -/
def EVFMT_Icon (x : Nat) : String := "ICON " ++ toString x ++ EVFMT_NEWLINE

/-- `#define EVFMT_Icon_PR(x) ("ICON " #x " %c" EVFMT_NEWLINE)` -/
def EVFMT_Icon_PR (x : Nat) : String := "ICON " ++ toString x ++ " %c" ++ EVFMT_NEWLINE

/-- `#define EVFMT_Accelerate ("ACCL %c" EVFMT_NEWLINE)` -/
def EVFMT_Accelerate : String := "ACCL %c" ++ EVFMT_NEWLINE

/-- `#define EVFMT_Brake ("BREK %c" EVFMT_NEWLINE)` -/
def EVFMT_Brake : String := "BREK %c" ++ EVFMT_NEWLINE

/-- `#define EVFMT_Gauge(x) ("GAUG " #x " %u" EVFMT_NEWLINE)`; the stringized
token `#x` is passed as a string. -/
def EVFMT_Gauge (x : String) : String := "GAUG " ++ x ++ " %u" ++ EVFMT_NEWLINE

/-- `#define EVFMT_Ignite ("IGNT" EVFMT_NEWLINE)` -/
def EVFMT_Ignite : String := "IGNT" ++ EVFMT_NEWLINE

/-- `#define EVFMT_Hazard ("HZRD" EVFMT_NEWLINE)` -/
def EVFMT_Hazard : String := "HZRD" ++ EVFMT_NEWLINE

/-- `#define EVFMT_Gear ("GEAR%s" EVFMT_NEWLINE)` -/
def EVFMT_Gear : String := "GEAR%s" ++ EVFMT_NEWLINE

/-- `#define EVFMT_Gear_Hint1 ("")` -/
def EVFMT_Gear_Hint1 : String := ""

/-- `#define EVFMT_Gear_Hint2 (" L")` -/
def EVFMT_Gear_Hint2 : String := " L"

/-- `#define EVFMT_Gear_Hint3 (" S")` -/
def EVFMT_Gear_Hint3 : String := " S"

/-! ## The logical-input enumeration -/

def HIT_LBLINK : Nat := 0
def HIT_ENGINE : Nat := 1
def HIT_OIL : Nat := 2
def HIT_BRAKEABS : Nat := 3
def HIT_BATTERY : Nat := 4
def HIT_SEATBELT : Nat := 5
def HIT_DOOR : Nat := 6
def HIT_LIGHT : Nat := 7
def HIT_HANDBRAKE : Nat := 8
def HIT_RBLINK : Nat := 9
def HIT_ACCEL : Nat := 10
def HIT_BRAKE : Nat := 11
def HIT_FUELVALUE : Nat := 12
def HIT_OILVALUE : Nat := 13
def HIT_TERMOVALUE : Nat := 14
def HIT_IGNITION : Nat := 15
def HIT_HAZARD_LIGHT : Nat := 16
def HIT_SWITCH_ANALOG : Nat := 17
def HIT_GEAR : Nat := 18

/-- Total number of logical inputs. -/
def HIT_COUNT : Nat := 19

/-! ## Fake analogs -/

/-- `#define FAKE_ANALOG_COUNT 3` -/
def FAKE_ANALOG_COUNT : Nat := 3

/-- `#define FAKE_ANALOG_REAL_PIN 0 //A0` -/
def FAKE_ANALOG_REAL_PIN : Nat := 0

/-! ## The descriptor table -/

open SourceLocator HitMode in
/-- `static const HIT_DESCRIPTOR hit_descriptor[HIT_COUNT]`, row for row. -/
def hit_descriptor : List HIT_DESCRIPTOR :=
  [ ⟨RealPin 22, EVFMT_Icon 0,       PRESS⟩,
    ⟨RealPin 24, EVFMT_Icon 1,       PRESS⟩,
    ⟨RealPin 26, EVFMT_Icon 2,       PRESS⟩,
    ⟨RealPin 28, EVFMT_Icon 3,       PRESS⟩,
    ⟨RealPin 30, EVFMT_Icon 4,       PRESS⟩,
    ⟨RealPin 32, EVFMT_Icon 5,       PRESS⟩,
    ⟨RealPin 34, EVFMT_Icon 6,       PRESS⟩,
    ⟨RealPin 36, EVFMT_Icon_PR 7,    PRESS_RELEASE⟩,
    ⟨RealPin 38, EVFMT_Icon 8,       PRESS⟩,
    ⟨RealPin 40, EVFMT_Icon 9,       PRESS⟩,

    ⟨RealPin 10, EVFMT_Accelerate,   PRESS_RELEASE⟩,
    ⟨RealPin 9,  EVFMT_Brake,        PRESS_RELEASE⟩,

    ⟨FakeSource 0, EVFMT_Gauge "F",  ANALOG⟩,
    ⟨FakeSource 1, EVFMT_Gauge "O",  ANALOG⟩,
    ⟨FakeSource 2, EVFMT_Gauge "T",  ANALOG⟩,

    ⟨RealPin 12, EVFMT_Ignite,       PRESS⟩,
    ⟨RealPin 11, EVFMT_Hazard,       PRESS⟩,

    ⟨RealPin 8,  "",                 PRESS_RELEASE⟩,

    ⟨RealPin 52, EVFMT_Gear,         GEAR⟩ ]

/-- Report template of the descriptor at logical index `i` (`""` out of range). -/
def reportTemplateAt (i : Nat) : String :=
  (hit_descriptor.map (·.reportTemplate)).getD i ""

/-- Mode of the descriptor at logical index `i` (`PRESS` out of range). -/
def modeAt (i : Nat) : HitMode :=
  (hit_descriptor.map (·.mode)).getD i HitMode.PRESS

/-- Does a string end with the CRLF terminator `EVFMT_NEWLINE`? -/
def endsWithCRLF (s : String) : Bool :=
  s.data.reverse.take 2 == ['\n', '\r']

/-- Is the locator a fake-analog source (carries the `HIT_INDEX_FAKED` flag)? -/
def isFaked : SourceLocator → Bool
  | .FakeSource _ => true
  | .RealPin _ => false

/-- The fake-source index of a locator, if it carries the `HIT_INDEX_FAKED` flag. -/
def fakeIndexOf : SourceLocator → Option Nat
  | .FakeSource i => some i
  | .RealPin _ => none

/-- The real pin number of a locator, if it is not flagged as faked. -/
def realPinOf : SourceLocator → Option Nat
  | .FakeSource _ => none
  | .RealPin n => some n

/-- The characters following a `%` sign in a template, i.e. the payload
placeholders of a `printf`-style format string (`c`, `u` or `s` in this
table; none of the templates contains an escaped `%`). -/
def placeholderAux : List Char → List Char
  | [] => []
  | ['%'] => []
  | '%' :: c :: rest => c :: placeholderAux rest
  | _ :: rest => placeholderAux rest

/-- Placeholders of a report template string. -/
def placeholders (s : String) : List Char := placeholderAux s.data

/-! ## Mode State Machine, PRESS mode

The runtime scan/dispatch engine is not among the given sources; only its
static configuration header `InputList.h` is.  The PRESS-mode transition
logic below is therefore modelled from the spec. -/

/-- Modelled from the spec: the PRESS-mode row of the Mode State Machine
table (the runtime handler itself is missing from the sources): "On raw
transition false→true: move idle→pressed, emit report.  On true→false: move
pressed→idle, no emit.  Re-entering pressed while already pressed: no emit
(edge-triggered, not level)."  Given the stored previous sample and the new
raw sample, this returns the number of reports emitted in that scan cycle. -/
def pressReport (prev raw : Bool) : Nat :=
  if !prev && raw then 1 else 0

/-- Total number of reports a PRESS-mode input emits over a sequence of scan
cycles, starting from stored state `prev`; the stored state after each cycle
is the raw sample of that cycle. -/
def pressScan : Bool → List Bool → Nat
  | _, [] => 0
  | prev, raw :: rest => pressReport prev raw + pressScan raw rest

/-! ## Event Formatter, gear reports -/

/-- Modelled from the spec: the Event Formatter's single-placeholder
substitution (the formatting routine is missing from the sources).
Substitutes the argument for the one `%s` placeholder; all other characters
are copied verbatim. -/
def substS : List Char → List Char → List Char
  | [], _ => []
  | '%' :: 's' :: rest, arg => arg ++ rest
  | c :: rest, arg => c :: substS rest arg

/-- Render a gear report: substitute a hint string into `EVFMT_Gear`. -/
def formatGear (hint : String) : String := ⟨substS EVFMT_Gear.data hint.data⟩

/-! ## Fake-analog binding

The fake-analog runtime state and its switching logic are likewise missing
from the sources (only `FAKE_ANALOG_COUNT` and `FAKE_ANALOG_REAL_PIN` are
declared in `InputList.h`), so they are modelled from the spec. -/

/-- Modelled from the spec: the `FakeAnalogBinding` runtime state — a
selector register naming the live fake source, and the frozen last raw value
of each fake source (indexed by fake-source index). -/
structure FakeAnalogState where
  selector : Nat
  frozen : List Nat
  deriving DecidableEq, Repr

/-- Modelled from the spec: triggering the SWITCH_ANALOG input freezes the
previously-live source's last raw value (the current reading of the shared
real pin) and advances the selector modulo `FAKE_ANALOG_COUNT`. -/
def switchAnalog (reading : Nat) (st : FakeAnalogState) : FakeAnalogState :=
  ⟨(st.selector + 1) % FAKE_ANALOG_COUNT, st.frozen.set st.selector reading⟩

/-- Modelled from the spec: Source Reader sampling of fake source `i` — if
`i` is the currently-live fake source it returns the fresh reading of the
shared real pin, otherwise the frozen last value recorded for `i`. -/
def sampleFake (i reading : Nat) (st : FakeAnalogState) : Nat :=
  if i = st.selector then reading else st.frozen.getD i 0

/-! ## Helper lemmas -/

theorem getD_set_self (l : List Nat) (i a : Nat) (h : i < l.length) :
    (l.set i a).getD i 0 = a := by
  induction l generalizing i with
  | nil => simp at h
  | cons x xs ih =>
    cases i with
    | zero => rfl
    | succ j => simpa using ih j (by simpa using h)

theorem getD_set_ne (l : List Nat) (i j a : Nat) (h : i ≠ j) :
    (l.set j a).getD i 0 = l.getD i 0 := by
  induction l generalizing i j with
  | nil => rfl
  | cons x xs ih =>
    cases j with
    | zero =>
      cases i with
      | zero => exact absurd rfl h
      | succ i' => simp
    | succ j' =>
      cases i with
      | zero => simp
      | succ i' => simpa using ih i' j' (fun hh => h (by rw [hh]))

theorem pressScan_false_replicate_false (m : Nat) :
    pressScan false (List.replicate m false) = 0 := by
  induction m with
  | zero => rfl
  | succ k ih => simp [List.replicate_succ, pressScan, pressReport, ih]

theorem pressScan_true_replicate_false (m : Nat) :
    pressScan true (List.replicate m false) = 0 := by
  cases m with
  | zero => rfl
  | succ k =>
    simp [List.replicate_succ, pressScan, pressReport,
      pressScan_false_replicate_false]

theorem pressScan_true_hold (n m : Nat) :
    pressScan true (List.replicate n true ++ List.replicate m false) = 0 := by
  induction n with
  | zero => simpa using pressScan_true_replicate_false m
  | succ k ih => simp [List.replicate_succ, pressScan, pressReport, ih]

/-! ## Claims -/

/-- C1: the SWITCH_ANALOG logical input is handled as a variant of PRESS mode
(edge-triggered) — in the table its key mode is one of the two edge-triggered
press modes — and its `reportTemplate` in the descriptor table is the empty
string. -/
theorem C1_switch_analog_press_variant_empty_template :
    (modeAt HIT_SWITCH_ANALOG = HitMode.PRESS ∨
      modeAt HIT_SWITCH_ANALOG = HitMode.PRESS_RELEASE) ∧
    reportTemplateAt HIT_SWITCH_ANALOG = "" := by decide

/-- C2, counterexample: not every descriptor's `reportTemplate` ends with the
CRLF terminator — the SWITCH_ANALOG row's template is the empty string. -/
theorem C2_counterexample_switch_analog_template :
    reportTemplateAt HIT_SWITCH_ANALOG = "" ∧
    endsWithCRLF (reportTemplateAt HIT_SWITCH_ANALOG) = false ∧
    ¬ (∀ d ∈ hit_descriptor, endsWithCRLF d.reportTemplate = true) := by decide

/-- C2, amended: every descriptor whose `reportTemplate` is nonempty has a
template terminated by the two-byte sequence carriage-return line-feed. -/
theorem C2_nonempty_templates_end_with_crlf :
    ∀ d ∈ hit_descriptor, d.reportTemplate ≠ "" →
      endsWithCRLF d.reportTemplate = true := by decide

/-- Witness for C2: the first row's template `"ICON 0\r\n"` is nonempty and
ends with CRLF. -/
theorem C2_nonempty_templates_end_with_crlf_witness :
    endsWithCRLF (EVFMT_Icon 0) = true :=
  C2_nonempty_templates_end_with_crlf
    ⟨SourceLocator.RealPin 22, EVFMT_Icon 0, HitMode.PRESS⟩
    (by decide) (by decide)

/-- C3: each logical input's compiled-in report template equals the
wire-protocol line format of spec section 6. -/
theorem C3_templates_equal_wire_formats :
    reportTemplateAt HIT_LBLINK = "ICON 0\r\n" ∧
    reportTemplateAt HIT_ENGINE = "ICON 1\r\n" ∧
    reportTemplateAt HIT_OIL = "ICON 2\r\n" ∧
    reportTemplateAt HIT_BRAKEABS = "ICON 3\r\n" ∧
    reportTemplateAt HIT_BATTERY = "ICON 4\r\n" ∧
    reportTemplateAt HIT_SEATBELT = "ICON 5\r\n" ∧
    reportTemplateAt HIT_DOOR = "ICON 6\r\n" ∧
    reportTemplateAt HIT_LIGHT = "ICON 7 %c\r\n" ∧
    reportTemplateAt HIT_HANDBRAKE = "ICON 8\r\n" ∧
    reportTemplateAt HIT_RBLINK = "ICON 9\r\n" ∧
    reportTemplateAt HIT_ACCEL = "ACCL %c\r\n" ∧
    reportTemplateAt HIT_BRAKE = "BREK %c\r\n" ∧
    reportTemplateAt HIT_FUELVALUE = "GAUG F %u\r\n" ∧
    reportTemplateAt HIT_OILVALUE = "GAUG O %u\r\n" ∧
    reportTemplateAt HIT_TERMOVALUE = "GAUG T %u\r\n" ∧
    reportTemplateAt HIT_IGNITION = "IGNT\r\n" ∧
    reportTemplateAt HIT_HAZARD_LIGHT = "HZRD\r\n" ∧
    reportTemplateAt HIT_GEAR = "GEAR%s\r\n" := by decide

/-- C4: `hit_descriptor` has exactly `HIT_COUNT` rows, indexed `0..HIT_COUNT-1`
by the logical-input enumeration, and no two rows share a `sourceLocator`
(fake-source indices being distinct from every real pin number). -/
theorem C4_table_length_and_locators_distinct :
    hit_descriptor.length = HIT_COUNT ∧
    (hit_descriptor.map (·.sourceLocator)).Nodup := by decide

/-- C5: PRESS mode is edge-triggered — a false→true transition emits exactly
one report, a true→false transition emits none, and holding true across
consecutive cycles emits none: over any scan sequence that rises once, is
held true for `n` further cycles, falls, and stays false for `m` cycles, the
total number of reports is exactly 1. -/
theorem C5_press_mode_edge_triggered (n m : Nat) :
    pressReport false true = 1 ∧
    pressReport true false = 0 ∧
    pressReport true true = 0 ∧
    pressScan false (List.replicate (n + 1) true ++ List.replicate m false) = 1 := by
  refine ⟨rfl, rfl, rfl, ?_⟩
  simp [List.replicate_succ, pressScan, pressReport, pressScan_true_hold]

/-- Witness for C5: a press held for three cycles then released for two
cycles yields exactly one report. -/
theorem C5_press_mode_edge_triggered_witness :
    pressScan false (List.replicate 3 true ++ List.replicate 2 false) = 1 :=
  (C5_press_mode_edge_triggered 2 2).2.2.2

/-- C6: substituting the three gear hint strings into the gear template
yields exactly the protocol lines `"GEAR\r\n"`, `"GEAR L\r\n"`,
`"GEAR S\r\n"`, and no other gear line is producible from the compiled-in
hints. -/
theorem C6_gear_hints_yield_exact_lines :
    EVFMT_Gear_Hint1 = "" ∧ EVFMT_Gear_Hint2 = " L" ∧ EVFMT_Gear_Hint3 = " S" ∧
    [EVFMT_Gear_Hint1, EVFMT_Gear_Hint2, EVFMT_Gear_Hint3].map formatGear
      = ["GEAR\r\n", "GEAR L\r\n", "GEAR S\r\n"] := by decide

/-- C7: FAKE_ANALOG_COUNT = 3 and triggering SWITCH_ANALOG that many times
returns liveness to the original fake source (one or two triggers do not);
the source that just ceased to be live reports the reading it had at the
moment it was last live, and a non-live source's report is independent of the
current real-pin reading and unchanged by a switch that does not make it
live. -/
theorem C7_fake_analog_switching (st : FakeAnalogState) (r1 r2 r3 r : Nat)
    (hsel : st.selector < FAKE_ANALOG_COUNT)
    (hlen : st.frozen.length = FAKE_ANALOG_COUNT) :
    FAKE_ANALOG_COUNT = 3 ∧
    (switchAnalog r3 (switchAnalog r2 (switchAnalog r1 st))).selector
      = st.selector ∧
    (switchAnalog r1 st).selector ≠ st.selector ∧
    (switchAnalog r2 (switchAnalog r1 st)).selector ≠ st.selector ∧
    (∀ x, sampleFake st.selector x (switchAnalog r st) = r) ∧
    (∀ i, i ≠ st.selector → i ≠ (switchAnalog r st).selector →
      ∀ x y, sampleFake i x (switchAnalog r st) = sampleFake i y st) := by
  have hc : FAKE_ANALOG_COUNT = 3 := rfl
  rw [hc] at hsel hlen
  refine ⟨rfl, ?_, ?_, ?_, ?_, ?_⟩
  · simp only [switchAnalog, hc]
    omega
  · simp only [switchAnalog, hc]
    omega
  · simp only [switchAnalog, hc]
    omega
  · intro x
    have hne : st.selector ≠ (st.selector + 1) % FAKE_ANALOG_COUNT := by
      rw [hc]; omega
    simp only [sampleFake, switchAnalog, if_neg hne]
    exact getD_set_self _ _ _ (by omega)
  · intro i hi hnew x y
    simp only [switchAnalog] at hnew
    simp only [sampleFake, switchAnalog, if_neg hnew, if_neg hi]
    exact getD_set_ne _ _ _ _ hi

/-- Witness for C7: from selector 0 with frozen values `[5, 6, 7]`, three
switches return the selector to 0. -/
theorem C7_fake_analog_switching_witness :
    (switchAnalog 30 (switchAnalog 20 (switchAnalog 10 ⟨0, [5, 6, 7]⟩))).selector
      = 0 :=
  (C7_fake_analog_switching ⟨0, [5, 6, 7]⟩ 10 20 30 40
    (by decide) (by decide)).2.1

/-- C8: every logical-input enumeration value has exactly one row in
`hit_descriptor` (the table has exactly `HIT_COUNT` rows, one per index), and
every fake-source index used in the table lies in `[0, FAKE_ANALOG_COUNT)`. -/
theorem C8_one_row_per_input_fake_indices_in_range :
    hit_descriptor.length = HIT_COUNT ∧
    ∀ d ∈ hit_descriptor,
      (fakeIndexOf d.sourceLocator).all
        (fun i => decide (i < FAKE_ANALOG_COUNT)) = true := by decide

/-- Witness for C8: the fuel-gauge row uses fake-source index 0, which is in
range. -/
theorem C8_one_row_per_input_fake_indices_in_range_witness :
    (fakeIndexOf (SourceLocator.FakeSource 0)).all
      (fun i => decide (i < FAKE_ANALOG_COUNT)) = true :=
  C8_one_row_per_input_fake_indices_in_range.2
    ⟨SourceLocator.FakeSource 0, EVFMT_Gauge "F", HitMode.ANALOG⟩ (by decide)

/-- C9: a descriptor's mode determines its template's payload placeholder —
PRESS templates have none, ANALOG templates exactly one `%u`, GEAR templates
exactly one `%s`, PRESS_RELEASE templates are empty or carry exactly one
`%c`, and no template has more than one placeholder. -/
theorem C9_mode_determines_placeholder :
    ∀ d ∈ hit_descriptor,
      (d.mode = HitMode.PRESS → placeholders d.reportTemplate = []) ∧
      (d.mode = HitMode.ANALOG → placeholders d.reportTemplate = ['u']) ∧
      (d.mode = HitMode.GEAR → placeholders d.reportTemplate = ['s']) ∧
      (d.mode = HitMode.PRESS_RELEASE →
        d.reportTemplate = "" ∨ placeholders d.reportTemplate = ['c']) ∧
      (placeholders d.reportTemplate).length ≤ 1 := by decide

/-- Witness for C9: the gear row is GEAR-mode and its template carries
exactly the `%s` placeholder. -/
theorem C9_mode_determines_placeholder_witness :
    placeholders EVFMT_Gear = ['s'] :=
  (C9_mode_determines_placeholder
    ⟨SourceLocator.RealPin 52, EVFMT_Gear, HitMode.GEAR⟩ (by decide)).2.2.1 rfl

/-- C10: a descriptor's locator carries the `HIT_INDEX_FAKED` flag exactly
when its mode is ANALOG; the ANALOG rows are exactly the fuel, oil and
temperature gauges; and no descriptor's real pin number equals
`FAKE_ANALOG_REAL_PIN`. -/
theorem C10_faked_iff_analog_no_pin_aliasing :
    (∀ d ∈ hit_descriptor,
      isFaked d.sourceLocator = (d.mode == HitMode.ANALOG)) ∧
    (List.range HIT_COUNT).filter (fun i => modeAt i == HitMode.ANALOG)
      = [HIT_FUELVALUE, HIT_OILVALUE, HIT_TERMOVALUE] ∧
    ∀ d ∈ hit_descriptor,
      (realPinOf d.sourceLocator).all
        (fun n => n != FAKE_ANALOG_REAL_PIN) = true := by decide

/-- Witness for C10: the fuel-gauge row is flagged faked and is ANALOG-mode. -/
theorem C10_faked_iff_analog_no_pin_aliasing_witness :
    isFaked (SourceLocator.FakeSource 0) = (HitMode.ANALOG == HitMode.ANALOG) :=
  C10_faked_iff_analog_no_pin_aliasing.1
    ⟨SourceLocator.FakeSource 0, EVFMT_Gauge "F", HitMode.ANALOG⟩ (by decide)

end VirtualEngineIO
